import Mathlib

/-!
Verification of the discrete-adjoint coupling layer of the SU2 solver
(`SU2_CFD/src/solver_adjoint_discrete.cpp`, class `CDiscAdjSolver`).

Each C++ routine relevant to the specification is embedded as a Lean
definition; `su2double` values are modelled as exact rationals or reals.
The MPI rank is passed explicitly; `MPI_Allreduce` with `MPI_SUM` over the
communicator is modelled as summation over a list of per-rank values.
-/

namespace SU2

/-- The designated master rank (`MASTER_NODE` in `option_structure.hpp`). -/
def MASTER_NODE : ℕ := 0

/-! ## Objective seeding: `CDiscAdjSolver::SetAdj_ObjFunc` (lines 417-428)

The routine sets the adjoint seed of `ObjFunc_Value` to `1.0` on the master
rank and to `0.0` on every other rank. -/

/-- Seed value that `SetAdj_ObjFunc` assigns to the objective adjoint on a
given rank: 1 on `MASTER_NODE`, 0 elsewhere. -/
def SetAdj_ObjFunc (rank : ℕ) : ℚ :=
  if rank = MASTER_NODE then 1 else 0

/-! ## Objective registration: `CDiscAdjSolver::RegisterObj_Func` (lines 351-414)

A `switch` on `config->GetKind_ObjFunc()` assigns `ObjFunc_Value` from one
primal-solver accessor; this `switch` is executed on every rank.  Only the
call `AD::RegisterOutput(ObjFunc_Value)` is guarded by
`rank == MASTER_NODE`. -/

/-- The objective selectors recognized by `RegisterObj_Func`'s `switch`. -/
inductive ObjectiveSelector
  | DRAG_COEFFICIENT
  | LIFT_COEFFICIENT
  | SIDEFORCE_COEFFICIENT
  | EFFICIENCY
  | MOMENT_X_COEFFICIENT
  | MOMENT_Y_COEFFICIENT
  | MOMENT_Z_COEFFICIENT
  | EQUIVALENT_AREA
  | AVG_TOTAL_PRESSURE
  | AVG_OUTLET_PRESSURE
  | MASS_FLOW_RATE
  | THRUST_NOZZLE
deriving DecidableEq

/-- The zero-argument scalar accessors of the primal solver that
`RegisterObj_Func` can invoke. -/
inductive Accessor
  | GetTotal_CDrag
  | GetTotal_CLift
  | GetTotal_CSideForce
  | GetTotal_CEff
  | GetTotal_CMx
  | GetTotal_CMy
  | GetTotal_CMz
  | GetTotal_CEquivArea
  | GetOneD_TotalPress
  | GetOneD_FluxAvgPress
  | GetOneD_MassFlowRate
  | GetThrust_Nozzle
deriving DecidableEq

/-- The accessor selected by the `switch` in `RegisterObj_Func` for each
recognized objective selector (lines 360-399). -/
def accessorFor : ObjectiveSelector → Accessor
  | .DRAG_COEFFICIENT      => .GetTotal_CDrag
  | .LIFT_COEFFICIENT      => .GetTotal_CLift
  | .SIDEFORCE_COEFFICIENT => .GetTotal_CSideForce
  | .EFFICIENCY            => .GetTotal_CEff
  | .MOMENT_X_COEFFICIENT  => .GetTotal_CMx
  | .MOMENT_Y_COEFFICIENT  => .GetTotal_CMy
  | .MOMENT_Z_COEFFICIENT  => .GetTotal_CMz
  | .EQUIVALENT_AREA       => .GetTotal_CEquivArea
  | .AVG_TOTAL_PRESSURE    => .GetOneD_TotalPress
  | .AVG_OUTLET_PRESSURE   => .GetOneD_FluxAvgPress
  | .MASS_FLOW_RATE        => .GetOneD_MassFlowRate
  | .THRUST_NOZZLE         => .GetThrust_Nozzle

/-- Observable trace of one call to `RegisterObj_Func` on one rank: which
accessors were invoked, the resulting `ObjFunc_Value`, and whether the
objective was registered as a tape output on this rank. -/
structure RegisterObjTrace where
  accessorsInvoked : List Accessor
  objFuncValue : ℚ
  registeredOnTape : Bool
deriving DecidableEq

/-- Embedding of `RegisterObj_Func`: the `switch` (executed unconditionally,
on every rank) invokes exactly the accessor of the selector and stores its
value in `ObjFunc_Value`; `AD::RegisterOutput` runs only when
`rank == MASTER_NODE` (lines 411-413). -/
def RegisterObj_Func (rank : ℕ) (scalars : Accessor → ℚ)
    (kindObjFunc : ObjectiveSelector) : RegisterObjTrace :=
  { accessorsInvoked := [accessorFor kindObjFunc]
    objFuncValue := scalars (accessorFor kindObjFunc)
    registeredOnTape := rank == MASTER_NODE }

/-! ## Objective-selector validation at setup

The configuration front end that parses the objective selector
(`CConfig`) is not part of the sources at hand; only its consumer
`RegisterObj_Func` is.  It is modelled from the specification. -/

/-- Modelled from the spec: the names of the recognized objective
selectors of the fixed table of section 4.3 / 6 of the specification;
the parsing code (`CConfig` option handling) is not under the available
sources. -/
def recognizedSelectorNames : List String :=
  ["drag", "lift", "sideforce", "efficiency",
   "moment-x", "moment-y", "moment-z",
   "equivalent area", "average total pressure", "average outlet pressure",
   "mass-flow rate", "nozzle thrust"]

/-- Modelled from the spec: mapping of a selector name to the
`ObjectiveSelector` value used by `RegisterObj_Func`. -/
def parseObjectiveSelector (s : String) : Option ObjectiveSelector :=
  if s = "drag" then some .DRAG_COEFFICIENT
  else if s = "lift" then some .LIFT_COEFFICIENT
  else if s = "sideforce" then some .SIDEFORCE_COEFFICIENT
  else if s = "efficiency" then some .EFFICIENCY
  else if s = "moment-x" then some .MOMENT_X_COEFFICIENT
  else if s = "moment-y" then some .MOMENT_Y_COEFFICIENT
  else if s = "moment-z" then some .MOMENT_Z_COEFFICIENT
  else if s = "equivalent area" then some .EQUIVALENT_AREA
  else if s = "average total pressure" then some .AVG_TOTAL_PRESSURE
  else if s = "average outlet pressure" then some .AVG_OUTLET_PRESSURE
  else if s = "mass-flow rate" then some .MASS_FLOW_RATE
  else if s = "nozzle thrust" then some .THRUST_NOZZLE
  else none

/-- Outcome of configuration setup for the objective selector. -/
inductive SetupOutcome
  | ok (k : ObjectiveSelector)
  | configurationError
deriving DecidableEq

/-- Modelled from the spec: setup validates the objective selector against
the fixed table; an unrecognized selector is a fatal configuration error
reported at setup. -/
def configSetup (s : String) : SetupOutcome :=
  match parseObjectiveSelector s with
  | some k => .ok k
  | none => .configurationError

/-- Modelled from the spec: number of outer adjoint iterations actually
run for a requested iteration count; a configuration error at setup is
fatal, so no outer iteration runs. -/
def outerIterationsRun (s : String) (requested : ℕ) : ℕ :=
  match configSetup s with
  | .ok _ => requested
  | .configurationError => 0

/-! ## Restart-file open failure: `CDiscAdjSolver::CDiscAdjSolver`
(lines 139-146)

Each rank opens the adjoint restart file itself.  On `fail()`, the master
rank prints a message, and the rank calls `exit(EXIT_FAILURE)`; there is
no collective combination of the local failure flags. -/

/-- Action a rank takes after attempting to open the adjoint restart
file. -/
inductive RankAction
  | printAndExit
  | exitOnly
  | continueLoad
deriving DecidableEq

/-- Embedding of the restart-open error path of the constructor: on local
`fail()`, the master prints and every failing rank exits; a rank whose
open succeeds continues loading.  The decision depends only on the rank's
own local flag. -/
def restartOpenCheck (rank : ℕ) (openFails : Bool) : RankAction :=
  if openFails then
    (if rank = MASTER_NODE then .printAndExit else .exitOnly)
  else .continueLoad

/-- Whether a `RankAction` terminates the process on that rank. -/
def aborts : RankAction → Bool
  | .printAndExit => true
  | .exitOnly => true
  | .continueLoad => false

/-! ## Sharp-edge suppression: `CDiscAdjSolver::SetSensitivity`
(lines 552-581)

Per point and coordinate dimension, the raw tape derivative of the
coordinate is stored, except that with `SENS_REMOVE_SHARP` enabled and the
point's sharp-edge distance below `SharpEdgesCoeff * (LimiterCoeff *
RefElemLength)` the stored value is forced to `0.0`. -/

/-- Embedding of the per-point, per-dimension body of `SetSensitivity`:
`rawDeriv` is `SU2_TYPE::GetDerivative(Coord[iDim])`; the sharp-edge
branch replaces it by 0 (lines 571-575). -/
def SetSensitivity_point (Sens_Remove_Sharp : Bool)
    (LimiterCoeff RefElemLength SharpEdgesCoeff SharpEdge_Distance rawDeriv : ℚ) : ℚ :=
  let Sensitivity := rawDeriv
  if Sens_Remove_Sharp then
    let eps := LimiterCoeff * RefElemLength
    if SharpEdge_Distance < SharpEdgesCoeff * eps then 0 else Sensitivity
  else Sensitivity

/-! ## Adjoint extraction: `CDiscAdjSolver::ExtractAdjoint_Solution`
(lines 430-500)

For every point, the old solution is saved, the tape-derived adjoint is
copied into the adjoint state; the time-level-n copy is made exactly when
the unsteady scheme is `DT_STEPPING_1ST` or `DT_STEPPING_2ND`, and the
time-level n-1 copy exactly when it is `DT_STEPPING_2ND`. -/

/-- Unsteady time-integration schemes (`config->GetUnsteady_Simulation()`). -/
inductive UnsteadySim
  | STEADY
  | TIME_STEPPING
  | DT_STEPPING_1ST
  | DT_STEPPING_2ND
deriving DecidableEq

/-- Tape-side adjoint data of one mesh point of the direct solver:
`GetAdjointSolution`, `GetAdjointSolution_time_n`,
`GetAdjointSolution_time_n1`. -/
structure DirectNode where
  adjSolution : List ℚ
  adjSolution_n : List ℚ
  adjSolution_n1 : List ℚ
deriving DecidableEq

/-- Adjoint state of one mesh point held by `CDiscAdjSolver` (`node[iPoint]`). -/
structure AdjNode where
  solution : List ℚ
  solutionOld : List ℚ
  solution_n : List ℚ
  solution_n1 : List ℚ
deriving DecidableEq

/-- Embedding of the per-point effect of `ExtractAdjoint_Solution`: the
old solution is saved (`Set_OldSolution`), the adjoint is copied into the
solution, and the time-level copies are made under the same flags
`time_n_needed` and `time_n1_needed` as lines 432-435. -/
def ExtractAdjoint_Solution_point (sim : UnsteadySim) (dn : DirectNode)
    (an : AdjNode) : AdjNode :=
  let time_n_needed := sim = UnsteadySim.DT_STEPPING_1ST ∨ sim = UnsteadySim.DT_STEPPING_2ND
  let time_n1_needed := sim = UnsteadySim.DT_STEPPING_2ND
  { solution := dn.adjSolution
    solutionOld := an.solution
    solution_n := if time_n_needed then dn.adjSolution_n else an.solution_n
    solution_n1 := if time_n1_needed then dn.adjSolution_n1 else an.solution_n1 }

/-- Embedding of `ExtractAdjoint_Solution` over all mesh points. -/
def ExtractAdjoint_Solution (sim : UnsteadySim) (direct : List DirectNode)
    (nodes : List AdjNode) : List AdjNode :=
  List.zipWith (ExtractAdjoint_Solution_point sim) direct nodes

/-! ## Restart-file loading: `CDiscAdjSolver::CDiscAdjSolver`
(lines 161-197)

After the header line, the k-th data line is assigned to global point
index k through the running counter `iPoint_Global`; the first column of
the line is parsed into `index` but never used, then `skipVars` columns
are skipped and `nVar` solution values are read. -/

/-- Solution values read from one data line of the restart file: the first
column (the global-index column, read into `index`) and the next
`skipVars` columns (read into `dull_val`) are discarded, then `nVar`
values are kept (lines 184-186). -/
def parseLine (skipVars nVar : ℕ) (cols : List ℚ) : List ℚ :=
  (cols.drop (1 + skipVars)).take nVar

/-- Embedding of the line-reading loop: `k` is the running counter
`iPoint_Global`; a line is assigned to local point `G2L k` exactly when
`G2L k ≥ 0`, producing the ordered list of `(local index, values)`
assignments. -/
def loadRestartAux (G2L : ℕ → ℤ) (skipVars nVar : ℕ) :
    ℕ → List (List ℚ) → List (ℤ × List ℚ)
  | _, [] => []
  | k, line :: rest =>
    if 0 ≤ G2L k then
      (G2L k, parseLine skipVars nVar line) :: loadRestartAux G2L skipVars nVar (k + 1) rest
    else loadRestartAux G2L skipVars nVar (k + 1) rest

/-- Embedding of the whole restart-file read: the counter starts at 0 on
the first data line after the header. -/
def loadRestart (G2L : ℕ → ℤ) (skipVars nVar : ℕ)
    (lines : List (List ℚ)) : List (ℤ × List ℚ) :=
  loadRestartAux G2L skipVars nVar 0 lines

/-! ## Freestream-velocity recomputation: `CDiscAdjSolver::RegisterVariables`
(lines 287-328)

For the compressible flow system, `Alpha` and `Beta` are the angles in
radians, `SoundSpeed` is recovered from the stored nondimensional first
velocity component, and the nondimensional freestream velocity is
recomputed from `(Mach, Alpha, Beta, SoundSpeed)` divided by
`Velocity_Ref`. -/

/-- Configuration data consumed by the velocity recomputation of
`RegisterVariables`. -/
structure FlowCfg where
  Velocity_Ref : ℝ
  AoA_deg : ℝ
  AoS_deg : ℝ
  Mach : ℝ
  velND : List ℝ

/-- Angle of attack in radians (`Alpha`, line 290). -/
noncomputable def alphaOf (c : FlowCfg) : ℝ := c.AoA_deg * Real.pi / 180

/-- Sideslip angle in radians (`Beta`, line 291). -/
noncomputable def betaOf (c : FlowCfg) : ℝ := c.AoS_deg * Real.pi / 180

/-- Local sound speed recovered from the stored first nondimensional
velocity component (lines 298-299). -/
noncomputable def soundSpeedOf (nDim : ℕ) (c : FlowCfg) : ℝ :=
  if nDim = 2 then
    c.velND.headI * c.Velocity_Ref / (Real.cos (alphaOf c) * c.Mach)
  else
    c.velND.headI * c.Velocity_Ref / (Real.cos (alphaOf c) * Real.cos (betaOf c) * c.Mach)

/-- Embedding of the freestream-velocity recomputation of
`RegisterVariables` (lines 311-319): the nondimensional components written
back into the configuration. -/
noncomputable def RegisterVariables_velocity (nDim : ℕ) (c : FlowCfg) : List ℝ :=
  let α := alphaOf c
  let β := betaOf c
  let M := c.Mach
  let ss := soundSpeedOf nDim c
  let Vref := c.Velocity_Ref
  if nDim = 2 then
    [Real.cos α * M * ss / Vref,
     Real.sin α * M * ss / Vref]
  else if nDim = 3 then
    [Real.cos α * Real.cos β * M * ss / Vref,
     Real.sin β * M * ss / Vref,
     Real.sin α * Real.cos β * M * ss / Vref]
  else c.velND

/-! ## Surface sensitivity: `CDiscAdjSolver::SetSurface_Sensitivity`
(lines 583-638)

For markers whose boundary kind is `EULER_WALL`, `HEAT_FLUX` or
`ISOTHERMAL`, each vertex's stored coordinate-sensitivity vector is
projected onto the vertex normal (`Prod/Area`), the stored per-vertex
value is `-Sens`, negated again when `GetFlip_Orientation()` holds; the
squares `Sens*Sens` of vertices with `GetDomain()` are accumulated per
marker, `sqrt` of each selected marker's accumulator is added into the
rank-local total, and the totals are `Allreduce`-summed over the ranks. -/

/-- Boundary-condition kinds of markers (subset of `option_structure.hpp`). -/
inductive KindBC
  | EULER_WALL
  | HEAT_FLUX
  | ISOTHERMAL
  | FAR_FIELD
  | SYMMETRY_PLANE
  | INLET_FLOW
  | OUTLET_FLOW
deriving DecidableEq

/-- Marker selection of lines 594-596: Euler walls and NS walls. -/
def isWallOfInterest (k : KindBC) : Bool :=
  k == KindBC.EULER_WALL || k == KindBC.HEAT_FLUX || k == KindBC.ISOTHERMAL

/-- One boundary vertex: its normal (`GetNormal`), the point's stored
sensitivity vector (`GetSensitivity`), the point's orientation flag
(`GetFlip_Orientation`) and ownership flag (`GetDomain`). -/
structure Vertex where
  normal : List ℝ
  pointSens : List ℝ
  flipOrientation : Bool
  domain : Bool

/-- One boundary marker: its boundary-condition kind, its vertices, and the
`CSensitivity` row as it stood before the call (all zeros after the
constructor). -/
structure Marker where
  kindBC : KindBC
  verts : List Vertex
  csensOld : List ℝ

/-- Dot-product accumulation over the `iDim` loop (used for both `Prod`
and `Area` before the square root). -/
noncomputable def dotProd : List ℝ → List ℝ → ℝ
  | x :: xs, y :: ys => x * y + dotProd xs ys
  | _, _ => 0

/-- The projection `Sens = Prod/Area` of lines 601-618: the scalar product
of normal and sensitivity divided by the normal's magnitude. -/
noncomputable def vertexSensRaw (v : Vertex) : ℝ :=
  let prodAcc := dotProd v.normal v.pointSens
  let area := Real.sqrt (dotProd v.normal v.normal)
  prodAcc / area

/-- The stored per-vertex surface sensitivity `CSensitivity[iMarker][iVertex]`
(lines 621-623): `-Sens`, negated again when the orientation flag is
flipped. -/
noncomputable def vertexCSens (v : Vertex) : ℝ :=
  let c := -(vertexSensRaw v)
  if v.flipOrientation then -c else c

/-- The `CSensitivity` row of a marker after `SetSurface_Sensitivity`:
recomputed for Euler/NS walls, untouched for every other marker kind. -/
noncomputable def markerCSens (m : Marker) : List ℝ :=
  if isWallOfInterest m.kindBC then m.verts.map vertexCSens else m.csensOld

/-- The vertex loop accumulating `Sens_Geo[iMarker]`: `Sens*Sens` added for
vertices whose point is owned by this partition (lines 625-627). -/
noncomputable def sensGeoLoop : List Vertex → ℝ → ℝ
  | [], acc => acc
  | v :: vs, acc =>
    sensGeoLoop vs (if v.domain then acc + vertexSensRaw v * vertexSensRaw v else acc)

/-- The marker loop accumulating `Total_Sens_Geo_local`: for each selected
marker, `sqrt(Sens_Geo[iMarker])` is added (line 629). -/
noncomputable def totalLoop : List Marker → ℝ → ℝ
  | [], acc => acc
  | m :: ms, acc =>
    totalLoop ms
      (if isWallOfInterest m.kindBC then acc + Real.sqrt (sensGeoLoop m.verts 0) else acc)

/-- Rank-local total geometric sensitivity `Total_Sens_Geo_local`. -/
noncomputable def Total_Sens_Geo_local (ms : List Marker) : ℝ := totalLoop ms 0

/-- `MPI_Allreduce` with `MPI_SUM` over one scalar per rank. -/
noncomputable def allreduceSum (xs : List ℝ) : ℝ := xs.sum

/-- The published global `Total_Sens_Geo` (lines 633-637): the collective
sum of the rank-local totals, each rank holding its own marker list. -/
noncomputable def Total_Sens_Geo (ranks : List (List Marker)) : ℝ :=
  allreduceSum (ranks.map Total_Sens_Geo_local)

/-- The specification's per-vertex projection: the dot product of the
coordinate-derivative vector with the outward normal, divided by the
normal's magnitude (the square root of its sum of squares). -/
noncomputable def normalProjection (v : Vertex) : ℝ :=
  dotProd v.normal v.pointSens / Real.sqrt ((v.normal.map (fun x => x * x)).sum)

/-- The specification's marker-level magnitude: square root of the sum of
squares of the stored per-vertex sensitivities over owned vertices. -/
noncomputable def specMarkerMagnitude (m : Marker) : ℝ :=
  Real.sqrt (((m.verts.filter (fun v => v.domain)).map (fun v => vertexCSens v ^ 2)).sum)

/-- The specification's rank-local total: the sum of the marker magnitudes
over the selected wall markers. -/
noncomputable def specLocalTotal (ms : List Marker) : ℝ :=
  ((ms.filter (fun m => isWallOfInterest m.kindBC)).map specMarkerMagnitude).sum

/-- The specification's 2D freestream-velocity formula:
`u = cos(α)·M·c`, `v = sin(α)·M·c`, in nondimensional form (divided by the
reference velocity). -/
noncomputable def specVelocity2D (α M c Vref : ℝ) : List ℝ :=
  [Real.cos α * M * c / Vref,
   Real.sin α * M * c / Vref]

/-- The specification's 3D freestream-velocity formula:
`u = cos(α)cos(β)·M·c`, `v = sin(β)·M·c`, `w = sin(α)cos(β)·M·c`, in
nondimensional form (divided by the reference velocity). -/
noncomputable def specVelocity3D (α β M c Vref : ℝ) : List ℝ :=
  [Real.cos α * Real.cos β * M * c / Vref,
   Real.sin β * M * c / Vref,
   Real.sin α * Real.cos β * M * c / Vref]

/-! ## Theorems -/

/-- Claim C1: for every outer iteration and every number of ranks,
`SetAdj_ObjFunc` assigns the objective's adjoint seed value 1 on exactly
one rank (the master rank) and 0 on every other rank, so the sum of the
seed values over all ranks is exactly 1. -/
theorem setAdjObjFunc_seed_sum (n : ℕ) (h : 0 < n) :
    (Finset.range n).sum SetAdj_ObjFunc = 1
    ∧ SetAdj_ObjFunc MASTER_NODE = 1
    ∧ ∀ r, r ≠ MASTER_NODE → SetAdj_ObjFunc r = 0 := by
  refine ⟨?_, ?_, ?_⟩
  · have hmem : MASTER_NODE ∈ Finset.range n := by
      simpa [MASTER_NODE] using h
    have hz : ∀ r ∈ Finset.range n, r ≠ MASTER_NODE → SetAdj_ObjFunc r = 0 := by
      intro r _ hr
      simp [SetAdj_ObjFunc, hr]
    rw [Finset.sum_eq_single_of_mem MASTER_NODE hmem hz]
    simp [SetAdj_ObjFunc]
  · simp [SetAdj_ObjFunc]
  · intro r hr
    simp [SetAdj_ObjFunc, hr]

/-- Witness for C1 with three ranks: the seeds sum to 1 and a non-master
rank receives seed 0. -/
theorem setAdjObjFunc_seed_sum_witness :
    (Finset.range 3).sum SetAdj_ObjFunc = 1 ∧ SetAdj_ObjFunc 2 = 0 :=
  ⟨(setAdjObjFunc_seed_sum 3 (by decide)).1,
   (setAdjObjFunc_seed_sum 3 (by decide)).2.2 2 (by decide)⟩

/-- Counterexample to claim C2: on non-master rank 1, `RegisterObj_Func`
does invoke a primal-solver accessor (the `switch` is not guarded by the
rank), contradicting that no accessor is invoked on non-master ranks. -/
theorem registerObjFunc_counterexample :
    (RegisterObj_Func 1 (fun _ => 0) ObjectiveSelector.DRAG_COEFFICIENT).accessorsInvoked
      = [Accessor.GetTotal_CDrag]
    ∧ (1 : ℕ) ≠ MASTER_NODE := by
  exact ⟨rfl, by decide⟩

/-- Claim C2 (amended): per outer iteration, `RegisterObj_Func` invokes
exactly one accessor of the primal solver on EVERY rank and stores its
value; only the registration of the objective value as a tape output
happens solely on the master rank. -/
theorem registerObjFunc_accessor_every_rank (rank : ℕ) (scalars : Accessor → ℚ)
    (k : ObjectiveSelector) :
    (RegisterObj_Func rank scalars k).accessorsInvoked = [accessorFor k]
    ∧ (RegisterObj_Func rank scalars k).objFuncValue = scalars (accessorFor k)
    ∧ ((RegisterObj_Func rank scalars k).registeredOnTape = true ↔ rank = MASTER_NODE) := by
  refine ⟨rfl, rfl, ?_⟩
  simp [RegisterObj_Func]

/-- Claim C3: every objective-selector value outside the recognized table
is rejected as a configuration error at setup, and no outer iteration
runs afterwards. -/
theorem unrecognizedSelector_configError (s : String) (requested : ℕ)
    (h : s ∉ recognizedSelectorNames) :
    configSetup s = SetupOutcome.configurationError
    ∧ outerIterationsRun s requested = 0 := by
  simp only [recognizedSelectorNames, List.mem_cons, List.not_mem_nil, or_false,
    not_or] at h
  obtain ⟨h1, h2, h3, h4, h5, h6, h7, h8, h9, h10, h11, h12⟩ := h
  have hs : parseObjectiveSelector s = none := by
    simp [parseObjectiveSelector, h1, h2, h3, h4, h5, h6, h7, h8, h9, h10, h11, h12]
  exact ⟨by simp [configSetup, hs], by simp [outerIterationsRun, configSetup, hs]⟩

/-- Witness for C3: the selector string "banana" is rejected at setup and
zero of the seven requested outer iterations run. -/
theorem unrecognizedSelector_configError_witness :
    configSetup "banana" = SetupOutcome.configurationError
    ∧ outerIterationsRun "banana" 7 = 0 :=
  unrecognizedSelector_configError "banana" 7 (by decide)

/-- Counterexample to claim C4: with two ranks where only rank 0 fails to
open the restart file, rank 1 does not abort: there is no collective OR of
the local detection flags, so the ranks do not abort together. -/
theorem restartAbort_counterexample :
    ¬ (∀ (fails : List Bool), fails.any id = true →
        ∀ i (h : i < fails.length),
          aborts (restartOpenCheck i (fails.get ⟨i, h⟩)) = true) := by
  intro hclaim
  have h2 := hclaim [true, false] (by decide) 1 (by decide)
  simp [restartOpenCheck, aborts] at h2

/-- Claim C4 (amended): each rank aborts exactly when its own local open
failed (the master rank additionally prints the report); the local flags
are never combined collectively, so a rank whose open succeeded continues
loading even when another rank detected the failure. -/
theorem restartAbort_local_only (rank : ℕ) (openFails : Bool) :
    aborts (restartOpenCheck rank openFails) = openFails
    ∧ (restartOpenCheck rank openFails = RankAction.printAndExit
        ↔ openFails = true ∧ rank = MASTER_NODE) := by
  cases openFails <;> by_cases hr : rank = MASTER_NODE <;>
    simp [restartOpenCheck, aborts, hr]

/-- Claim C5: when sharp-edge suppression is enabled and the point's
sharp-edge distance is below `sharpEdgesCoefficient * (limiterCoefficient *
referenceElementLength)`, `SetSensitivity` stores exactly 0 for that
coordinate regardless of the raw tape derivative; otherwise it stores the
raw tape derivative. -/
theorem setSensitivity_sharp_edge (rs : Bool) (lc rl sc d raw : ℚ) :
    (rs = true → d < sc * (lc * rl) →
      SetSensitivity_point rs lc rl sc d raw = 0)
    ∧ (rs = true → sc * (lc * rl) ≤ d →
      SetSensitivity_point rs lc rl sc d raw = raw)
    ∧ (rs = false → SetSensitivity_point rs lc rl sc d raw = raw) := by
  refine ⟨fun h1 h2 => ?_, fun h1 h2 => ?_, fun h1 => ?_⟩
  · subst h1; simp [SetSensitivity_point, h2]
  · subst h1; simp [SetSensitivity_point, not_lt.mpr h2]
  · subst h1; simp [SetSensitivity_point]

/-- Witness for C5: below the threshold the stored value is 0 even for a
raw derivative of 5; at or above the threshold, and with suppression off,
the raw derivative 5 is stored. -/
theorem setSensitivity_sharp_edge_witness :
    SetSensitivity_point true 1 1 1 0 5 = 0
    ∧ SetSensitivity_point true 1 1 1 2 5 = 5
    ∧ SetSensitivity_point false 1 1 1 0 5 = 5 :=
  ⟨(setSensitivity_sharp_edge true 1 1 1 0 5).1 rfl (by norm_num),
   (setSensitivity_sharp_edge true 1 1 1 2 5).2.1 rfl (by norm_num),
   (setSensitivity_sharp_edge false 1 1 1 0 5).2.2 rfl⟩

/-- Claim C6: during recording, `RegisterVariables` recomputes the
dependent nondimensional freestream-velocity components from Mach, angle
of attack, sideslip angle and local sound speed as `u = cos(α)·M·c`,
`v = sin(α)·M·c` in 2D and `u = cos(α)cos(β)·M·c`, `v = sin(β)·M·c`,
`w = sin(α)cos(β)·M·c` in 3D, divided by the reference velocity. -/
theorem registerVariables_velocity_formulas (c : FlowCfg) :
    RegisterVariables_velocity 2 c
      = specVelocity2D (alphaOf c) c.Mach (soundSpeedOf 2 c) c.Velocity_Ref
    ∧ RegisterVariables_velocity 3 c
      = specVelocity3D (alphaOf c) (betaOf c) c.Mach (soundSpeedOf 3 c) c.Velocity_Ref := by
  constructor <;> simp [RegisterVariables_velocity, specVelocity2D, specVelocity3D]

/-- The dot product of a list with itself is its sum of squared entries. -/
theorem dotProd_self_eq_sum_squares (xs : List ℝ) :
    dotProd xs xs = (xs.map (fun x => x * x)).sum := by
  induction xs with
  | nil => simp [dotProd]
  | cons x xs ih => simp [dotProd, ih]

/-- Counterexample to claim C7: for a vertex with normal `(1,0)`,
coordinate-derivative vector `(1,0)` and orientation flag NOT flipped, the
projection onto the unit normal is 1 but the stored surface sensitivity is
-1: the code stores the negated projection on unflipped vertices. -/
theorem surfaceSens_sign_counterexample :
    vertexCSens ⟨[1, 0], [1, 0], false, true⟩ = -1
    ∧ normalProjection ⟨[1, 0], [1, 0], false, true⟩ = 1
    ∧ vertexCSens ⟨[1, 0], [1, 0], false, true⟩
        ≠ normalProjection ⟨[1, 0], [1, 0], false, true⟩ := by
  have hdot : dotProd [(1 : ℝ), 0] [(1 : ℝ), 0] = 1 := by
    norm_num [dotProd]
  have hsum : (([(1 : ℝ), 0]).map (fun x => x * x)).sum = 1 := by norm_num
  have hproj : normalProjection ⟨[1, 0], [1, 0], false, true⟩ = 1 := by
    simp [normalProjection, hdot, hsum, Real.sqrt_one]
  have hcs : vertexCSens ⟨[1, 0], [1, 0], false, true⟩ = -1 := by
    simp [vertexCSens, vertexSensRaw, hdot, Real.sqrt_one]
  refine ⟨hcs, hproj, ?_⟩
  rw [hcs, hproj]
  norm_num

/-- Claim C7 (amended): on wall markers of interest the stored per-vertex
surface sensitivity equals the NEGATED projection of the vertex's
coordinate-derivative vector onto the outward unit normal, with the
negation undone (equal to the projection) exactly when the owning point's
orientation flag is flipped; vertices on markers of other kinds keep their
previous (zero-initialized) sensitivity. -/
theorem surfaceSens_projection (v : Vertex) (m : Marker) :
    vertexCSens v
      = (if v.flipOrientation = true then normalProjection v else -(normalProjection v))
    ∧ markerCSens m
      = (if isWallOfInterest m.kindBC = true then m.verts.map vertexCSens else m.csensOld) := by
  constructor
  · have h : vertexSensRaw v = normalProjection v := by
      simp [vertexSensRaw, normalProjection, dotProd_self_eq_sum_squares]
    cases hf : v.flipOrientation <;> simp [vertexCSens, hf, h]
  · rfl

/-- Squaring the stored surface sensitivity gives the square accumulated
by the `Sens_Geo` loop: the orientation sign cancels. -/
theorem vertexCSens_sq (v : Vertex) :
    vertexCSens v ^ 2 = vertexSensRaw v * vertexSensRaw v := by
  cases hf : v.flipOrientation <;> simp [vertexCSens, hf] <;> ring

/-- The `Sens_Geo` accumulation loop computes the sum of squares of the
stored sensitivities over the vertices owned by the partition. -/
theorem sensGeoLoop_eq (vs : List Vertex) :
    ∀ acc, sensGeoLoop vs acc
      = acc + ((vs.filter (fun v => v.domain)).map (fun v => vertexCSens v ^ 2)).sum := by
  induction vs with
  | nil => intro acc; simp [sensGeoLoop]
  | cons v vs ih =>
    intro acc
    cases hv : v.domain <;>
      simp [sensGeoLoop, hv, ih, List.filter_cons, vertexCSens_sq] <;> try ring

/-- The marker loop computes the sum, over selected wall markers, of the
square roots of the per-marker sums of squares. -/
theorem totalLoop_eq (ms : List Marker) :
    ∀ acc, totalLoop ms acc = acc + specLocalTotal ms := by
  induction ms with
  | nil => intro acc; simp [totalLoop, specLocalTotal]
  | cons m ms ih =>
    intro acc
    cases hm : isWallOfInterest m.kindBC <;>
      simp [totalLoop, hm, ih, specLocalTotal, List.filter_cons, specMarkerMagnitude,
        sensGeoLoop_eq] <;> try ring

/-- Claim C8: the rank-local total geometric sensitivity equals the sum
over selected markers of the square root of the sum of squares of the
per-vertex sensitivities over owned vertices, and the published global
total is the collective sum of the rank-local totals across all ranks. -/
theorem totalSensGeo_sum (ms : List Marker) (ranks : List (List Marker)) :
    Total_Sens_Geo_local ms = specLocalTotal ms
    ∧ Total_Sens_Geo ranks = allreduceSum (ranks.map Total_Sens_Geo_local)
    ∧ Total_Sens_Geo ranks = (ranks.map specLocalTotal).sum := by
  have hl : ∀ ms2 : List Marker, Total_Sens_Geo_local ms2 = specLocalTotal ms2 := by
    intro ms2
    simp [Total_Sens_Geo_local, totalLoop_eq]
  refine ⟨hl ms, rfl, ?_⟩
  have hfun : Total_Sens_Geo_local = specLocalTotal := funext hl
  simp [Total_Sens_Geo, allreduceSum, hfun]

/-- Claim C9: `ExtractAdjoint_Solution` copies the tape-derived adjoint of
every mesh point into the adjoint state; it additionally copies the
time-level-n adjoint exactly when the unsteady scheme is first- or
second-order dual-time stepping, and the time-level n-1 adjoint exactly
when the scheme is second-order dual-time stepping. -/
theorem extractAdjointSolution_time_levels (sim : UnsteadySim)
    (direct : List DirectNode) (nodes : List AdjNode) (dn : DirectNode) (an : AdjNode) :
    ExtractAdjoint_Solution sim direct nodes
      = List.zipWith (ExtractAdjoint_Solution_point sim) direct nodes
    ∧ (ExtractAdjoint_Solution_point sim dn an).solution = dn.adjSolution
    ∧ (ExtractAdjoint_Solution_point sim dn an).solutionOld = an.solution
    ∧ (sim = UnsteadySim.DT_STEPPING_1ST ∨ sim = UnsteadySim.DT_STEPPING_2ND →
        (ExtractAdjoint_Solution_point sim dn an).solution_n = dn.adjSolution_n)
    ∧ (sim ≠ UnsteadySim.DT_STEPPING_1ST ∧ sim ≠ UnsteadySim.DT_STEPPING_2ND →
        (ExtractAdjoint_Solution_point sim dn an).solution_n = an.solution_n)
    ∧ (sim = UnsteadySim.DT_STEPPING_2ND →
        (ExtractAdjoint_Solution_point sim dn an).solution_n1 = dn.adjSolution_n1)
    ∧ (sim ≠ UnsteadySim.DT_STEPPING_2ND →
        (ExtractAdjoint_Solution_point sim dn an).solution_n1 = an.solution_n1) := by
  refine ⟨rfl, rfl, rfl, ?_, ?_, ?_, ?_⟩ <;> intro h <;> cases sim <;>
    simp_all [ExtractAdjoint_Solution_point]

/-- Witness for C9: with second-order dual-time stepping all three levels
are copied from the tape; with a steady scheme the n and n-1 levels keep
their previous values. -/
theorem extractAdjointSolution_time_levels_witness :
    (ExtractAdjoint_Solution_point UnsteadySim.DT_STEPPING_2ND
      ⟨[1], [2], [3]⟩ ⟨[4], [5], [6], [7]⟩).solution = [1]
    ∧ (ExtractAdjoint_Solution_point UnsteadySim.DT_STEPPING_2ND
      ⟨[1], [2], [3]⟩ ⟨[4], [5], [6], [7]⟩).solution_n = [2]
    ∧ (ExtractAdjoint_Solution_point UnsteadySim.DT_STEPPING_2ND
      ⟨[1], [2], [3]⟩ ⟨[4], [5], [6], [7]⟩).solution_n1 = [3]
    ∧ (ExtractAdjoint_Solution_point UnsteadySim.STEADY
      ⟨[1], [2], [3]⟩ ⟨[4], [5], [6], [7]⟩).solution_n = [6]
    ∧ (ExtractAdjoint_Solution_point UnsteadySim.STEADY
      ⟨[1], [2], [3]⟩ ⟨[4], [5], [6], [7]⟩).solution_n1 = [7] :=
  ⟨(extractAdjointSolution_time_levels UnsteadySim.DT_STEPPING_2ND [] []
      ⟨[1], [2], [3]⟩ ⟨[4], [5], [6], [7]⟩).2.1,
   (extractAdjointSolution_time_levels UnsteadySim.DT_STEPPING_2ND [] []
      ⟨[1], [2], [3]⟩ ⟨[4], [5], [6], [7]⟩).2.2.2.1 (Or.inr rfl),
   (extractAdjointSolution_time_levels UnsteadySim.DT_STEPPING_2ND [] []
      ⟨[1], [2], [3]⟩ ⟨[4], [5], [6], [7]⟩).2.2.2.2.2.1 rfl,
   (extractAdjointSolution_time_levels UnsteadySim.STEADY [] []
      ⟨[1], [2], [3]⟩ ⟨[4], [5], [6], [7]⟩).2.2.2.2.1 ⟨by decide, by decide⟩,
   (extractAdjointSolution_time_levels UnsteadySim.STEADY [] []
      ⟨[1], [2], [3]⟩ ⟨[4], [5], [6], [7]⟩).2.2.2.2.2.2 (by decide)⟩

/-- The k-th data line is assigned to the local image of global index
`j + k` when the loading loop starts its counter at `j`. -/
theorem loadRestartAux_mem (G2L : ℕ → ℤ) (s n : ℕ) :
    ∀ (lines : List (List ℚ)) (j k : ℕ) (h : k < lines.length),
      0 ≤ G2L (j + k) →
      (G2L (j + k), parseLine s n (lines.get ⟨k, h⟩))
        ∈ loadRestartAux G2L s n j lines := by
  intro lines
  induction lines with
  | nil => intro j k h; simp at h
  | cons line rest ih =>
    intro j k h hpos
    cases k with
    | zero =>
      rw [Nat.add_zero] at hpos
      simp only [Nat.add_zero, List.get, loadRestartAux, if_pos hpos]
      exact List.mem_cons_self _ _
    | succ k =>
      have hk : k < rest.length := Nat.lt_of_succ_lt_succ (by simpa using h)
      have heq : j + (k + 1) = (j + 1) + k := by omega
      rw [heq] at hpos
      have hmem := ih (j + 1) k hk hpos
      have hget : (line :: rest).get ⟨k + 1, h⟩ = rest.get ⟨k, hk⟩ := rfl
      rw [heq, hget]
      simp only [loadRestartAux]
      split
      · exact List.mem_cons_of_mem _ hmem
      · exact hmem

/-- `parseLine` ignores the first (global-index) column: replacing it
changes nothing in the parsed solution values. -/
theorem parseLine_index_irrelevant (s n : ℕ) (c : ℚ) (cols : List ℚ) :
    parseLine s n (c :: cols.tail) = parseLine s n cols := by
  have h1 : (c :: cols.tail).drop (1 + s) = cols.tail.drop s := by
    rw [Nat.add_comm]
    exact List.drop_succ_cons
  have h2 : cols.tail.drop s = cols.drop (1 + s) := by
    rw [← List.drop_one, List.drop_drop, Nat.add_comm]
  rw [parseLine, parseLine, h1, h2]

/-- Replacing the global-index column of every line leaves the whole load
result unchanged, for any starting counter. -/
theorem loadRestartAux_index_irrelevant (G2L : ℕ → ℤ) (s n : ℕ) (f : List ℚ → ℚ) :
    ∀ (lines : List (List ℚ)) (j : ℕ),
      loadRestartAux G2L s n j (lines.map (fun cols => f cols :: cols.tail))
        = loadRestartAux G2L s n j lines := by
  intro lines
  induction lines with
  | nil => intro j; rfl
  | cons line rest ih =>
    intro j
    by_cases h0 : 0 ≤ G2L j
    · simp only [List.map_cons, loadRestartAux, if_pos h0,
        parseLine_index_irrelevant, ih]
    · simp only [List.map_cons, loadRestartAux, if_neg h0, ih]

/-- Claim C10: the restart loader assigns the k-th data line after the
header to global point index k by counting lines; the global-index column
is parsed but never used for the mapping, so rewriting every line's index
column produces exactly the same loaded assignments. -/
theorem loadRestart_positional (G2L : ℕ → ℤ) (s n : ℕ) (lines : List (List ℚ))
    (f : List ℚ → ℚ) (k : ℕ) (h : k < lines.length) (hown : 0 ≤ G2L k) :
    (G2L k, parseLine s n (lines.get ⟨k, h⟩)) ∈ loadRestart G2L s n lines
    ∧ loadRestart G2L s n (lines.map (fun cols => f cols :: cols.tail))
        = loadRestart G2L s n lines := by
  constructor
  · have hmem := loadRestartAux_mem G2L s n lines 0 k h (by simpa using hown)
    simpa using hmem
  · exact loadRestartAux_index_irrelevant G2L s n f lines 0

/-- Witness for C10: in a two-line file, line 1 is loaded into global
point 1 with the index column skipped, and overwriting every index column
with 99 leaves the loaded assignments unchanged. -/
theorem loadRestart_positional_witness :
    ((1 : ℤ), parseLine 1 1 ([[5, 10, 1], [7, 20, 2]].get ⟨1, by decide⟩))
      ∈ loadRestart (fun k => Int.ofNat k) 1 1 [[5, 10, 1], [7, 20, 2]]
    ∧ loadRestart (fun k => Int.ofNat k) 1 1
        ([[5, 10, 1], [7, 20, 2]].map (fun cols => (99 : ℚ) :: cols.tail))
      = loadRestart (fun k => Int.ofNat k) 1 1 [[5, 10, 1], [7, 20, 2]] := by
  have h := loadRestart_positional (fun k => Int.ofNat k) 1 1 [[5, 10, 1], [7, 20, 2]]
    (fun _ => (99 : ℚ)) 1 (by decide) (by decide)
  exact ⟨h.1, h.2⟩

end SU2
